import Mathlib

/-!
Verification of the HMC v2 kiosk frontend (the client reconciler in
src/frontend/app.js and the newer copy embedded in
src/scripts/start_kiosk.sh).  JavaScript numbers are modelled as
rationals with an explicit NaN/nullish marker; the DOM state touched by
the reconciler is modelled as explicit records, and event handlers as
pure functions from inputs to UI state plus a trace of dispatched
commands and fetches.
-/

namespace HMC

/-- A JavaScript numeric value as the frontend meets it: either a real
number (modelled as a rational) or NaN; null/undefined behave like NaN
in every numeric position the frontend uses (comparisons false, falsy). -/
inductive JSNum where
  | nan : JSNum
  | num (q : ℚ) : JSNum
deriving DecidableEq, Repr

/-- JavaScript truthiness test for a numeric value: NaN, null, undefined
and 0 are falsy. -/
def JSNum.falsy : JSNum → Bool
  | .nan => true
  | .num q => q == 0

/-- JavaScript expression v OR 0 on a numeric value: the value if
truthy, else 0. -/
def JSNum.orZero : JSNum → ℚ
  | .nan => 0
  | .num q => if q == 0 then 0 else q

/-- JavaScript truncation toward zero, as Math does for the percent
remainder operator. -/
def jsTrunc (q : ℚ) : ℤ :=
  if q < 0 then ⌈q⌉ else ⌊q⌋

/-- The JavaScript remainder a percent b (sign of the dividend):
a - b * trunc (a / b). -/
def jsRem (a b : ℚ) : ℚ :=
  a - b * (jsTrunc (a / b) : ℚ)

/-- String.padStart(2, ZERO) from JavaScript, specialised to the
two-digit padding formatDuration uses. -/
def padStart2 (s : String) : String :=
  if s.length ≥ 2 then s else ("".pushn '0' (2 - s.length)) ++ s

/-- formatDuration from app.js: falsy input gives "0:00", otherwise
minutes are Math.floor(sec / 60), seconds are Math.floor(sec % 60)
padded to two digits. -/
def formatDuration (sec : JSNum) : String :=
  if sec.falsy then "0:00"
  else
    match sec with
    | .nan => "0:00"
    | .num q =>
      let m := ⌊q / 60⌋
      let s := ⌊jsRem q 60⌋
      toString m ++ ":" ++ padStart2 (toString s)

/-- A track reference as rendered in the track list (currentTracks
entries); identity is the id string. -/
structure TrackRef where
  id : String
  name : String
  duration : JSNum
deriving DecidableEq, Repr

/-- The PlaybackState snapshot returned by GET /player/state, with the
fields the frontend reads. -/
structure PlayerSnapshot where
  state : String
  current_track : Option TrackRef
  position : JSNum
  duration : JSNum
  total_tracks : JSNum
deriving DecidableEq, Repr

/-- A command dispatched by the frontend to the Controller endpoints. -/
inductive Cmd where
  | pause
  | resume
  | stop
  | next
  | previous
  | seek (position : ℚ)
  | setVolume (volume : ℤ)
  | queueJump (index : ℕ)
  | queueRemove (index : ℕ)
  | queuePlayNow (trackId albumId : String)
  | queuePlayNext (trackId albumId : String)
  | queueAdd (trackId albumId : String)
deriving DecidableEq, Repr

/-- The play/pause transport button handler: it re-fetches
/player/state and dispatches pause when the fresh state is the string
playing, else resume. -/
def playPauseCommand (fetched : PlayerSnapshot) : Cmd :=
  if fetched.state = "playing" then .pause else .resume

/-- The stateMap object in updatePlayerState: localized German labels
for the playback state strings. -/
def stateMap : List (String × String) :=
  [("idle", "Bereit"), ("loading", "Lade..."), ("playing", "Wiedergabe"),
   ("paused", "Pause"), ("stopped", "Gestoppt"), ("error", "Fehler")]

/-- The member keys of Object.prototype in the kiosk's Chromium:
property access on the stateMap object literal falls through to these
when the key is not one of the six own keys. -/
def objectPrototypeKeys : List String :=
  ["constructor", "hasOwnProperty", "isPrototypeOf", "propertyIsEnumerable",
   "toLocaleString", "toString", "valueOf", "__proto__",
   "__defineGetter__", "__defineSetter__", "__lookupGetter__", "__lookupSetter__"]

/-- What assigning the inherited Object.prototype member at the given
key to innerText renders: the methods coerce to their V8 source text,
and the proto accessor yields Object.prototype itself, which renders as
its object tag. -/
def inheritedMemberText (name : String) : String :=
  if name = "__proto__" then "[object Object]"
  else "function " ++ name ++ "() \x7b [native code] \x7d"

/-- statusDiv.innerText on a successful tick:
stateMap[state.state] OR state.state.toUpperCase().  The property
access finds the six own keys of the object literal first, then the
inherited Object.prototype members — these are all truthy, so they
short-circuit the OR — and only a key absent from both yields
undefined, falling back to the raw state name uppercased (the OR also
falls through on an own value that is the empty string). -/
def statusLabel (st : String) : String :=
  match stateMap.lookup st with
  | some l => if l = "" then st.toUpper else l
  | none =>
    if st ∈ objectPrototypeKeys then inheritedMemberText st
    else st.toUpper

/-- Minutes and seconds fields of formatDuration for a real number
input, as integers. -/
def fdMinutes (q : ℚ) : ℤ := ⌊q / 60⌋

def fdSeconds (q : ℚ) : ℤ := ⌊jsRem q 60⌋

theorem jsTrunc_nonneg_eq_floor {q : ℚ} (h : 0 ≤ q) : jsTrunc q = ⌊q⌋ := by
  simp [jsTrunc, not_lt.mpr h]

theorem jsRem_nonneg_bounds {q : ℚ} (h : 0 ≤ q) :
    0 ≤ jsRem q 60 ∧ jsRem q 60 < 60 := by
  have h60 : (0:ℚ) ≤ q / 60 := by positivity
  have ht : jsTrunc (q / 60) = ⌊q / 60⌋ := jsTrunc_nonneg_eq_floor h60
  have hfl : (⌊q / 60⌋ : ℚ) ≤ q / 60 := Int.floor_le _
  have hfu : q / 60 < ⌊q / 60⌋ + 1 := Int.lt_floor_add_one _
  constructor
  · have : (60:ℚ) * (⌊q / 60⌋ : ℚ) ≤ q := by
      calc (60:ℚ) * (⌊q / 60⌋ : ℚ) ≤ 60 * (q / 60) := by nlinarith
        _ = q := by ring
    simp only [jsRem, ht]
    linarith
  · have : q < 60 * ((⌊q / 60⌋ : ℚ) + 1) := by
      calc q = 60 * (q / 60) := by ring
        _ < 60 * ((⌊q / 60⌋ : ℚ) + 1) := by nlinarith
    simp only [jsRem, ht]
    linarith

/-- Claim C9: for every non-negative real number of seconds q,
formatDuration returns the floor of q / 60, a colon, and the floor of
the remainder q mod 60 zero-padded to two digits; that seconds field
lies between 0 and 59; and every falsy input (NaN, null, undefined —
all modelled by the nan constructor — and 0) yields "0:00". -/
theorem C9_formatDuration (q : ℚ) (h : 0 ≤ q) :
    formatDuration (.num q)
        = toString (fdMinutes q) ++ ":" ++ padStart2 (toString (fdSeconds q))
    ∧ 0 ≤ fdSeconds q ∧ fdSeconds q ≤ 59
    ∧ formatDuration .nan = "0:00" ∧ formatDuration (.num 0) = "0:00" := by
  obtain ⟨hr0, hr60⟩ := jsRem_nonneg_bounds h
  have hs0 : 0 ≤ fdSeconds q := by
    simpa [fdSeconds] using Int.floor_nonneg.mpr hr0
  have hs59 : fdSeconds q ≤ 59 := by
    have : fdSeconds q < 60 := by
      simpa [fdSeconds] using Int.floor_lt.mpr (by exact_mod_cast hr60)
    omega
  refine ⟨?_, hs0, hs59, rfl, rfl⟩
  by_cases hq : q = 0
  · subst hq
    simp [formatDuration, JSNum.falsy, fdMinutes, fdSeconds, jsRem, jsTrunc,
      padStart2]
    rfl
  · simp [formatDuration, JSNum.falsy, hq, fdMinutes, fdSeconds]

/-- Witness for C9 at the concrete input 125: two minutes, five
seconds. -/
theorem C9_formatDuration_witness :
    (0:ℚ) ≤ 125 ∧
      (formatDuration (.num 125)
          = toString (fdMinutes 125) ++ ":" ++ padStart2 (toString (fdSeconds 125))
       ∧ 0 ≤ fdSeconds 125 ∧ fdSeconds (125:ℚ) ≤ 59
       ∧ formatDuration .nan = "0:00" ∧ formatDuration (.num 0) = "0:00") :=
  ⟨by norm_num, C9_formatDuration 125 (by norm_num)⟩

/-- Claim C5: the transport play/pause handler chooses its one command
from the freshly fetched snapshot alone — pause exactly when that
snapshot's state is playing, resume in every other fetched state. -/
theorem C5_playPause (s : PlayerSnapshot) :
    (s.state = "playing" → playPauseCommand s = .pause)
    ∧ (s.state ≠ "playing" → playPauseCommand s = .resume) := by
  constructor
  · intro h; simp [playPauseCommand, h]
  · intro h; simp [playPauseCommand, h]

/-- Witness for C5: a playing snapshot yields pause, a paused snapshot
yields resume. -/
theorem C5_playPause_witness :
    playPauseCommand ⟨"playing", none, .nan, .nan, .nan⟩ = .pause
    ∧ playPauseCommand ⟨"paused", none, .nan, .nan, .nan⟩ = .resume :=
  ⟨(C5_playPause _).1 rfl, (C5_playPause _).2 (by decide)⟩

/-- adjustVolume(delta) from the embedded app.js: read the slider value,
add the delta, clamp below at 0, above at 100, then above at the slider
max attribute (the HTML sets max to 60), write the slider and dispatch
one setVolume command with that value.  The setVolume dispatch helper is
not among the sources; per the spec it sends exactly one volume command,
so the result is the new slider value together with that one command. -/
def adjustVolume (sliderValue sliderMax delta : ℤ) : ℤ × List Cmd :=
  let v0 := sliderValue + delta
  let v1 := if v0 < 0 then 0 else v0
  let v2 := if v1 > 100 then 100 else v1
  let v3 := if v2 > sliderMax then sliderMax else v2
  (v3, [Cmd.setVolume v3])

/-- Modelled from the spec: the Controller-side setVolume command
handler is backend code absent from the sources; the spec states that
setVolume clamps its level to the configured policy bounds min and max,
is valid in any state and does not change the state. -/
def controllerSetVolume (vmin vmax level : ℤ) : ℤ :=
  if level < vmin then vmin else if level > vmax then vmax else level

/-- Claim C2: the Controller's setVolume always lands inside the policy
bounds for every integer input (backend handler modelled from the
spec), and the client's adjustVolume clamps the new slider value into
[0, slider max] and dispatches exactly one setVolume command carrying
that clamped value, for every integer delta and starting value. -/
theorem C2_volume_clamping (vmin vmax level v m d : ℤ)
    (hpol : vmin ≤ vmax) (hm : 0 ≤ m) :
    (vmin ≤ controllerSetVolume vmin vmax level
      ∧ controllerSetVolume vmin vmax level ≤ vmax)
    ∧ (0 ≤ (adjustVolume v m d).1 ∧ (adjustVolume v m d).1 ≤ m
      ∧ (adjustVolume v m d).2 = [Cmd.setVolume (adjustVolume v m d).1]) := by
  refine ⟨?_, ?_, ?_, rfl⟩
  · unfold controllerSetVolume
    split <;> [omega; (split <;> omega)]
  · unfold adjustVolume
    dsimp only
    split <;> [skip; skip] <;> (split <;> [skip; skip]) <;> (split <;> omega)
  · unfold adjustVolume
    dsimp only
    split <;> [skip; skip] <;> (split <;> [skip; skip]) <;> (split <;> omega)

/-- Witness for C2 at policy bounds [0, 60], slider max 60, slider value
50 and delta +500: the dispatched volume is clamped to 60. -/
theorem C2_volume_clamping_witness :
    ((0:ℤ) ≤ 60 ∧ (0:ℤ) ≤ 60) ∧
      ((0 ≤ controllerSetVolume 0 60 (-37) ∧ controllerSetVolume 0 60 (-37) ≤ 60)
       ∧ (0 ≤ (adjustVolume 50 60 500).1 ∧ (adjustVolume 50 60 500).1 ≤ 60
         ∧ (adjustVolume 50 60 500).2
             = [Cmd.setVolume (adjustVolume 50 60 500).1])) :=
  ⟨⟨by norm_num, by norm_num⟩,
   C2_volume_clamping 0 60 (-37) 50 60 500 (by norm_num) (by norm_num)⟩

/-- The progress-bar click handler: compute the click fraction from the
pointer x-coordinate and the bar rectangle, fetch a fresh snapshot, and
when its duration is a number strictly greater than 0 dispatch one seek
at duration times the fraction; otherwise dispatch nothing (a NaN
duration compares false). -/
def progressBarClick (clientX rectLeft rectWidth : ℚ)
    (fetched : PlayerSnapshot) : List Cmd :=
  let percent := (clientX - rectLeft) / rectWidth
  match fetched.duration with
  | .num d => if 0 < d then [Cmd.seek (d * percent)] else []
  | .nan => []

/-- Claim C6: a click at horizontal fraction f of the bar (pointer at
left + f * width, width non-zero) issues exactly one seek at
f * duration when the freshly fetched duration is a strictly positive
number, and no seek at all when the duration is not strictly positive
or is NaN/missing. -/
theorem C6_seek (f l w : ℚ) (s : PlayerSnapshot) (hw : w ≠ 0) :
    (∀ d : ℚ, s.duration = .num d → 0 < d →
        progressBarClick (l + f * w) l w s = [Cmd.seek (d * f)])
    ∧ (∀ d : ℚ, s.duration = .num d → ¬ 0 < d →
        progressBarClick (l + f * w) l w s = [])
    ∧ (s.duration = .nan → progressBarClick (l + f * w) l w s = []) := by
  have hfw : f * w / w = f := mul_div_cancel_right₀ f hw
  refine ⟨?_, ?_, ?_⟩
  · intro d hd hdpos
    simp [progressBarClick, hd, hdpos, hfw]
  · intro d hd hdneg
    simp [progressBarClick, hd, hdneg]
  · intro hd
    simp [progressBarClick, hd]

/-- Witness for C6: a click halfway across a bar from x = 10 of width
200 with a 300-second track seeks to 150 seconds. -/
theorem C6_seek_witness :
    (200:ℚ) ≠ 0 ∧
      progressBarClick (10 + (1/2 : ℚ) * 200) 10 200
          ⟨"playing", none, .num 30, .num 300, .num 12⟩
        = [Cmd.seek (300 * (1/2 : ℚ))] :=
  ⟨by norm_num,
   (C6_seek (1/2) 10 200 ⟨"playing", none, .num 30, .num 300, .num 12⟩
      (by norm_num)).1 300 rfl (by norm_num)⟩

/-- The progress-bar region of the successful-tick render: fill
percentage and the two time labels. -/
structure ProgressRender where
  fillPercent : ℚ
  currentTime : String
  totalTime : String
deriving DecidableEq, Repr

/-- The progress-bar update in updatePlayerState: when the snapshot's
duration is a number strictly greater than 0, default a falsy position
to 0, set the fill to min(100, position / duration * 100) and the
labels from formatDuration; otherwise zero fill and "0:00" labels. -/
def renderProgress (s : PlayerSnapshot) : ProgressRender :=
  match s.duration with
  | .num d =>
    if 0 < d then
      let pos := s.position.orZero
      { fillPercent := min 100 (pos / d * 100)
        currentTime := formatDuration (.num pos)
        totalTime := formatDuration (.num d) }
    else { fillPercent := 0, currentTime := "0:00", totalTime := "0:00" }
  | .nan => { fillPercent := 0, currentTime := "0:00", totalTime := "0:00" }

/-- Claim C10: the fill fraction is divided by the duration only under
the guard duration strictly positive, equals the clamped
min(100, position / duration * 100) with a missing position defaulted
to 0, and never exceeds 100 even when position exceeds duration; when
the duration is missing, NaN or not strictly positive the fill is 0 and
both labels are "0:00". -/
theorem C10_progress (s : PlayerSnapshot) :
    ((∃ d : ℚ, s.duration = .num d ∧ 0 < d) →
        (renderProgress s).fillPercent ≤ 100
        ∧ ∀ d : ℚ, s.duration = .num d →
            (renderProgress s).fillPercent
              = min 100 (s.position.orZero / d * 100)
            ∧ (renderProgress s).currentTime = formatDuration (.num s.position.orZero)
            ∧ (renderProgress s).totalTime = formatDuration (.num d))
    ∧ (¬ (∃ d : ℚ, s.duration = .num d ∧ 0 < d) →
        renderProgress s = ⟨0, "0:00", "0:00"⟩) := by
  constructor
  · rintro ⟨d, hd, hdpos⟩
    constructor
    · simp [renderProgress, hd, hdpos]
    · intro d' hd'
      rw [hd] at hd'
      injection hd' with hdd
      subst hdd
      simp [renderProgress, hd, hdpos]
  · intro hno
    match hdur : s.duration with
    | .nan => simp [renderProgress, hdur]
    | .num d =>
      have hdneg : ¬ 0 < d := fun hpos => hno ⟨d, hdur, hpos⟩
      simp [renderProgress, hdur, hdneg]

/-- Witness for C10: position 500 over duration 300 renders a fill of
exactly 100 percent, and a NaN duration renders the zero state. -/
theorem C10_progress_witness :
    ((∃ d : ℚ, (JSNum.num 300 : JSNum) = .num d ∧ 0 < d) ∧
      (renderProgress ⟨"playing", none, .num 500, .num 300, .nan⟩).fillPercent ≤ 100)
    ∧ renderProgress ⟨"playing", none, .num 500, .nan, .nan⟩ = ⟨0, "0:00", "0:00"⟩ :=
  ⟨⟨⟨300, rfl, by norm_num⟩,
    ((C10_progress ⟨"playing", none, .num 500, .num 300, .nan⟩).1
      ⟨300, rfl, by norm_num⟩).1⟩,
   (C10_progress ⟨"playing", none, .num 500, .nan, .nan⟩).2 (by rintro ⟨d, h, -⟩; cases h)⟩

/-- The active-track highlighting pass of updatePlayerState, as a
function on the rendered rows' current marks: in the tracks view with a
current track, row i becomes active exactly when currentTracks[i]
exists and its id equals the current track's id; in the tracks view
with no current track every row's mark is removed; in any other view
the marks are untouched. -/
def updateActiveMarks (currentView : String) (currentTracks : List TrackRef)
    (rowMarks : List Bool) (current_track : Option TrackRef) : List Bool :=
  if currentView = "tracks" then
    match current_track with
    | some ct =>
        rowMarks.mapIdx fun i _ =>
          match currentTracks.get? i with
          | some t => t.id == ct.id
          | none => false
    | none => rowMarks.map fun _ => false
  else rowMarks

theorem mapIdx_marks_eq (cid : String) :
    ∀ (tracks : List TrackRef) (marks : List Bool),
      marks.length = tracks.length →
      (marks.mapIdx fun i _ =>
          match tracks.get? i with
          | some t => t.id == cid
          | none => false)
        = tracks.map fun t => t.id == cid := by
  intro tracks
  induction tracks with
  | nil =>
    intro marks hlen
    rw [List.length_nil, List.length_eq_zero] at hlen
    subst hlen
    rfl
  | cons t ts ih =>
    intro marks hlen
    match marks with
    | [] => simp at hlen
    | b :: bs =>
      simp only [List.length_cons, Nat.succ_inj] at hlen
      rw [List.mapIdx_cons, List.map_cons]
      congr 1
      simpa using ih bs hlen

/-- Claim C1: on a successful tick in the tracks view, the resulting
marks are determined solely by the rendered track list and the fetched
snapshot — with a current track, exactly the rows whose track id equals
the current track's id are active (identity by id, not position); with
no current track every mark is cleared; the prior marks (including any
stale highlighting from before an outage) never survive. -/
theorem C1_active_marks (tracks : List TrackRef) (marks : List Bool)
    (cur : Option TrackRef) (hlen : marks.length = tracks.length) :
    updateActiveMarks "tracks" tracks marks cur
      = match cur with
        | some ct => tracks.map fun t => t.id == ct.id
        | none => tracks.map fun _ => false := by
  match cur with
  | some ct =>
    simp only [updateActiveMarks, if_pos rfl]
    exact mapIdx_marks_eq ct.id tracks marks hlen
  | none =>
    simp only [updateActiveMarks, if_pos rfl]
    rw [List.map_const', List.map_const', hlen]
    simp

/-- Witness for C1: two rendered rows with stale marks [true, false];
the snapshot's current track is the second row's id, so the marks
become [false, true] regardless of the stale state. -/
theorem C1_active_marks_witness :
    ([true, false] : List Bool).length
        = ([⟨"a", "Alpha", .num 100⟩, ⟨"b", "Beta", .num 200⟩] : List TrackRef).length
    ∧ updateActiveMarks "tracks"
        [⟨"a", "Alpha", .num 100⟩, ⟨"b", "Beta", .num 200⟩]
        [true, false] (some ⟨"b", "Beta", .num 200⟩)
      = [false, true] :=
  ⟨rfl, C1_active_marks
    [⟨"a", "Alpha", .num 100⟩, ⟨"b", "Beta", .num 200⟩]
    [true, false] (some ⟨"b", "Beta", .num 200⟩) rfl⟩

/-- The transport-controls portion of the footer DOM the reconciler
writes on every tick: the disabled flag, opacity and pointer-events of
every footer button (they are all written identically). -/
structure ControlsUI where
  disabled : Bool
  opacity : ℚ
  pointerEvents : String
deriving DecidableEq, Repr

/-- The reconciler-owned indicator state: status text, the connection
overlay's display style, and the transport controls. -/
structure ReconcilerUI where
  statusText : String
  overlayDisplay : String
  controls : ControlsUI
deriving DecidableEq, Repr

/-- The failure branch of updatePlayerState writes these control
fields: disabled, half opacity, pointer-events none. -/
def offlineControls : ControlsUI := ⟨true, 1/2, "none"⟩

/-- The success branch re-enables every control: not disabled, full
opacity, pointer-events auto. -/
def enabledControls : ControlsUI := ⟨false, 1, "auto"⟩

/-- One poll tick of updatePlayerState projected onto the indicator
state: a successful fetch (some snapshot) hides the overlay, sets the
localized status and enables the controls; a failed fetch (none) sets
the status to OFFLINE, shows the overlay (display flex) and disables
the controls.  The failure branch touches nothing but this client-local
UI state. -/
def pollTick (ui : ReconcilerUI) (result : Option PlayerSnapshot) : ReconcilerUI :=
  match result with
  | some s =>
    { statusText := statusLabel s.state
      overlayDisplay := "none"
      controls := enabledControls }
  | none =>
    { statusText := "OFFLINE"
      overlayDisplay := "flex"
      controls := offlineControls }
  -- ui is the prior DOM state; both branches overwrite every field


/-- Claim C4: a failed tick puts the indicator into the offline state
(OFFLINE status, overlay shown, every control disabled at half opacity
with pointer-events off); any run of further failed ticks leaves that
state unchanged; and the first subsequent successful tick hides the
overlay and re-enables every control. -/
theorem C4_offline (ui : ReconcilerUI) (between : List (Option PlayerSnapshot))
    (s : PlayerSnapshot) (hf : ∀ r ∈ between, r = none) :
    pollTick ui none
        = { statusText := "OFFLINE", overlayDisplay := "flex",
            controls := offlineControls }
    ∧ List.foldl pollTick (pollTick ui none) between
        = { statusText := "OFFLINE", overlayDisplay := "flex",
            controls := offlineControls }
    ∧ (pollTick (List.foldl pollTick (pollTick ui none) between) (some s)).overlayDisplay
        = "none"
    ∧ (pollTick (List.foldl pollTick (pollTick ui none) between) (some s)).controls
        = enabledControls := by
  refine ⟨rfl, ?_, rfl, rfl⟩
  induction between with
  | nil => rfl
  | cons r rs ih =>
    have hr : r = none := hf r (List.mem_cons_self r rs)
    subst hr
    rw [List.foldl_cons]
    exact ih fun x hx => hf x (List.mem_cons_of_mem _ hx)

/-- Witness for C4: starting from an enabled UI, a failure followed by
two more failures stays offline, and a success snapshot restores the
controls. -/
theorem C4_offline_witness :
    (∀ r ∈ ([none, none] : List (Option PlayerSnapshot)), r = none) ∧
      (pollTick ⟨"Bereit", "none", enabledControls⟩ none
          = { statusText := "OFFLINE", overlayDisplay := "flex",
              controls := offlineControls }
       ∧ List.foldl pollTick (pollTick ⟨"Bereit", "none", enabledControls⟩ none)
            [none, none]
          = { statusText := "OFFLINE", overlayDisplay := "flex",
              controls := offlineControls }
       ∧ (pollTick (List.foldl pollTick
            (pollTick ⟨"Bereit", "none", enabledControls⟩ none) [none, none])
            (some ⟨"playing", none, .nan, .nan, .nan⟩)).overlayDisplay = "none"
       ∧ (pollTick (List.foldl pollTick
            (pollTick ⟨"Bereit", "none", enabledControls⟩ none) [none, none])
            (some ⟨"playing", none, .nan, .nan, .nan⟩)).controls = enabledControls) :=
  ⟨by simp,
   C4_offline ⟨"Bereit", "none", enabledControls⟩ [none, none]
     ⟨"playing", none, .nan, .nan, .nan⟩ (by simp)⟩

/-- Event-loop simulation of the volume slider's debounce: events are
(time, value) pairs in arrival order; the handler state is the pending
timeout, a (fire time, captured value) pair scheduled 200 ms after its
input.  Before each input is handled, a pending timeout whose fire time
has arrived dispatches its captured value; the input's clearTimeout
then cancels whatever is still pending and setTimeout schedules the new
value at now + 200.  After the last input the surviving timeout fires. -/
def debounceAux : Option (ℚ × ℤ) → List (ℚ × ℤ) → List ℤ
  | pend, [] =>
    match pend with
    | some (_, v) => [v]
    | none => []
  | pend, e :: rest =>
    (match pend with
     | some (fire, v) => if fire ≤ e.1 then [v] else []
     | none => []) ++ debounceAux (some (e.1 + 200, e.2)) rest

/-- The values the debounced slider handler sends to /player/volume,
for a timed input sequence, starting with no pending timeout. -/
def debounceRun (events : List (ℚ × ℤ)) : List ℤ :=
  debounceAux none events

/-- The values whose input event is followed by a 200 ms idle window:
the last event's value, and any value whose successor arrives no
earlier than 200 ms later. -/
def idleDispatched : List (ℚ × ℤ) → List ℤ
  | [] => []
  | [e] => [e.2]
  | e :: e' :: rest =>
    (if e.1 + 200 ≤ e'.1 then [e.2] else []) ++ idleDispatched (e' :: rest)

theorem debounceAux_pending (l : List (ℚ × ℤ)) :
    ∀ (t : ℚ) (v : ℤ),
      debounceAux (some (t + 200, v)) l = idleDispatched ((t, v) :: l) := by
  induction l with
  | nil => intro t v; rfl
  | cons e rest ih =>
    intro t v
    cases rest with
    | nil =>
      simp [debounceAux, idleDispatched]
    | cons e' rest' =>
      show (if t + 200 ≤ e.1 then [v] else []) ++ debounceAux (some (e.1 + 200, e.2)) (e' :: rest')
          = (if t + 200 ≤ e.1 then [v] else []) ++ idleDispatched ((e.1, e.2) :: e' :: rest')
      rw [ih e.1 e.2]

/-- Claim C7: for any finite sequence of slider input events at
strictly increasing times, the debounced handler dispatches exactly the
values followed by a 200 ms window with no further input (always
including the final value), and in particular when every gap between
consecutive inputs is under 200 ms — a continuous drag — only the final
value is ever sent and no intermediate value is dispatched. -/
theorem C7_debounce (events : List (ℚ × ℤ))
    (hmono : events.Chain' fun a b => a.1 < b.1) :
    debounceRun events = idleDispatched events
    ∧ (events.Chain' (fun a b => b.1 < a.1 + 200) →
        debounceRun events = (events.getLast?.map Prod.snd).toList) := by
  have hmain : debounceRun events = idleDispatched events := by
    cases events with
    | nil => rfl
    | cons e rest =>
      show ([] : List ℤ) ++ debounceAux (some (e.1 + 200, e.2)) rest
          = idleDispatched (e :: rest)
      rw [List.nil_append, debounceAux_pending rest e.1 e.2]
  refine ⟨hmain, fun hfast => ?_⟩
  rw [hmain]
  clear hmain hmono
  induction events with
  | nil => rfl
  | cons e rest ih =>
    cases rest with
    | nil => rfl
    | cons e' rest' =>
      have hgap : e'.1 < e.1 + 200 := (List.chain'_cons.mp hfast).1
      have htail := (List.chain'_cons.mp hfast).2
      show (if e.1 + 200 ≤ e'.1 then [e.2] else []) ++ idleDispatched (e' :: rest')
          = ((e' :: rest').getLast?.map Prod.snd).toList
      rw [if_neg (not_le.mpr hgap), List.nil_append]
      exact ih htail

/-- Witness for C7: three drag positions 40 ms apart followed by a rest
— only the final value 35 is dispatched. -/
theorem C7_debounce_witness :
    ([((0:ℚ), (20:ℤ)), (40, 27), (80, 35)].Chain' fun a b => a.1 < b.1) ∧
      (debounceRun [((0:ℚ), (20:ℤ)), (40, 27), (80, 35)]
          = idleDispatched [((0:ℚ), (20:ℤ)), (40, 27), (80, 35)]
       ∧ (([((0:ℚ), (20:ℤ)), (40, 27), (80, 35)].Chain'
              fun a b => b.1 < a.1 + 200) →
           debounceRun [((0:ℚ), (20:ℤ)), (40, 27), (80, 35)]
             = (([((0:ℚ), (20:ℤ)), (40, 27), (80, 35)].getLast?).map Prod.snd).toList)) :=
  ⟨by norm_num, C7_debounce [((0:ℚ), (20:ℤ)), (40, 27), (80, 35)] (by norm_num)⟩

/-- A toast notice created by showToast: the message, the error flag,
and the delay (2000 ms) after which the visible class is removed and
the element dropped — the notice auto-dismisses. -/
structure Toast where
  message : String
  isError : Bool
  dismissAfterMs : ℚ
deriving DecidableEq, Repr

/-- showToast from the embedded app.js: one transient notice, removed
after 2000 ms. -/
def showToast (message : String) (isError : Bool) : Toast :=
  ⟨message, isError, 2000⟩

/-- The observable trace of one user action handler: the commands it
issues, whether it re-fetched /player/state and /queue, and the toasts
it created. -/
structure ActionTrace where
  cmds : List Cmd
  fetchedPlayerState : Bool
  fetchedQueue : Bool
  toasts : List Toast
deriving DecidableEq, Repr

/-- jumpToTrack(index): POST /queue/jump/index, then updateQueue (which
fetches /queue only while the overlay is visible), then
updatePlayerState (which fetches /player/state and, when the overlay is
visible, /queue again).  networkOk false models the fetch itself
rejecting, which skips both refreshes; no toast is shown on either
path. -/
def jumpToTrack (index : ℕ) (queueVisible networkOk : Bool) : ActionTrace :=
  if networkOk then
    { cmds := [.queueJump index], fetchedPlayerState := true
      fetchedQueue := queueVisible, toasts := [] }
  else
    { cmds := [.queueJump index], fetchedPlayerState := false
      fetchedQueue := false, toasts := [] }

/-- removeFromQueue(index): DELETE /queue/index then the same two
refreshes as jumpToTrack; no toast on either path. -/
def removeFromQueue (index : ℕ) (queueVisible networkOk : Bool) : ActionTrace :=
  if networkOk then
    { cmds := [.queueRemove index], fetchedPlayerState := true
      fetchedQueue := queueVisible, toasts := [] }
  else
    { cmds := [.queueRemove index], fetchedPlayerState := false
      fetchedQueue := false, toasts := [] }

/-- The per-action success message of handleQueueAction. -/
def queueActionToastMsg (action : String) : String :=
  if action = "play-now" then "Wiedergabe gestartet"
  else if action = "play-next" then "Als Nächstes hinzugefügt"
  else if action = "add-to-queue" then "Zur Wiedergabeliste hinzugefügt"
  else ""

/-- The command a track-menu action posts, with the request body's
track and album ids. -/
def queueActionCmd (action trackId albumId : String) : Option Cmd :=
  if action = "play-now" then some (.queuePlayNow trackId albumId)
  else if action = "play-next" then some (.queuePlayNext trackId albumId)
  else if action = "add-to-queue" then some (.queueAdd trackId albumId)
  else none

/-- handleQueueAction(action, trackId, albumId): look up the endpoint
(unknown actions return without any effect), POST once, and on an ok
response show the success toast keyed to the action and run
updatePlayerState (state fetch, plus a queue fetch while the overlay is
visible); on a failed response show the error toast and refresh
nothing. -/
def handleQueueAction (action trackId albumId : String)
    (queueVisible respOk : Bool) : ActionTrace :=
  match queueActionCmd action trackId albumId with
  | none => { cmds := [], fetchedPlayerState := false, fetchedQueue := false, toasts := [] }
  | some c =>
    if respOk then
      { cmds := [c], fetchedPlayerState := true, fetchedQueue := queueVisible
        toasts := [showToast (queueActionToastMsg action) false] }
    else
      { cmds := [c], fetchedPlayerState := false, fetchedQueue := false
        toasts := [showToast "Fehler: Aktion fehlgeschlagen" true] }

/-- Counterexample to C3 as stated, at concrete inputs: the queue-item
actions jump (index 2) and remove (index 0) with the overlay visible
and the command succeeding surface no confirmation notice at all —
their toast lists are empty where the claim requires a notice keyed to
the action; and the track-menu action play-next on a failed response
does issue its one command yet re-fetches nothing, where the claim
requires an unconditional re-fetch of the player state — as does jump
when its command fetch itself rejects. -/
theorem C3_counterexample :
    (jumpToTrack 2 true true).toasts = []
    ∧ (removeFromQueue 0 true true).toasts = []
    ∧ (handleQueueAction "play-next" "t7" "a3" true false).cmds
        = [.queuePlayNext "t7" "a3"]
    ∧ (handleQueueAction "play-next" "t7" "a3" true false).fetchedPlayerState = false
    ∧ (handleQueueAction "play-next" "t7" "a3" true false).fetchedQueue = false
    ∧ (jumpToTrack 2 true false).fetchedPlayerState = false :=
  ⟨rfl, rfl, rfl, rfl, rfl, rfl⟩

/-- Claim C3 as amended: every queue-item action and every track-menu
action issues exactly one command.  The queue-item actions jump and
remove then re-fetch the player state (and the queue when the overlay
is visible) whenever their command fetch resolves, regardless of the
response status, but surface no confirmation notice; if the fetch
itself rejects they re-fetch nothing.  The three track-menu actions, on
an ok response, re-fetch the player state (and the queue when the
overlay is visible) and surface exactly one transient, auto-dismissing
(2000 ms) confirmation toast keyed to the action; on a failed response
they surface an error toast and re-fetch nothing. -/
theorem C3_amended (i : ℕ) (qv ok : Bool) (action trackId albumId : String)
    (haction : action ∈ ["play-now", "play-next", "add-to-queue"]) :
    jumpToTrack i qv ok
        = { cmds := [.queueJump i], fetchedPlayerState := ok
            fetchedQueue := qv && ok, toasts := [] }
    ∧ removeFromQueue i qv ok
        = { cmds := [.queueRemove i], fetchedPlayerState := ok
            fetchedQueue := qv && ok, toasts := [] }
    ∧ (handleQueueAction action trackId albumId qv true).cmds.length = 1
    ∧ (handleQueueAction action trackId albumId qv true).fetchedPlayerState = true
    ∧ (handleQueueAction action trackId albumId qv true).fetchedQueue = qv
    ∧ (handleQueueAction action trackId albumId qv true).toasts
        = [⟨queueActionToastMsg action, false, 2000⟩]
    ∧ queueActionToastMsg action ≠ ""
    ∧ (handleQueueAction action trackId albumId qv false).cmds
        = (handleQueueAction action trackId albumId qv true).cmds
    ∧ (handleQueueAction action trackId albumId qv false).fetchedPlayerState = false
    ∧ (handleQueueAction action trackId albumId qv false).fetchedQueue = false
    ∧ (handleQueueAction action trackId albumId qv false).toasts
        = [⟨"Fehler: Aktion fehlgeschlagen", true, 2000⟩] := by
  refine ⟨?_, ?_, ?_⟩
  · cases ok <;> cases qv <;> rfl
  · cases ok <;> cases qv <;> rfl
  · fin_cases haction <;>
      exact ⟨rfl, rfl, rfl, rfl, by decide, rfl, rfl, rfl, rfl⟩

/-- Witness for C3 amended at index 2, overlay visible, a resolving
command fetch, and the play-next action on concrete track and album
ids. -/
theorem C3_amended_witness :
    ("play-next" ∈ ["play-now", "play-next", "add-to-queue"]) ∧
      (jumpToTrack 2 true true
          = { cmds := [.queueJump 2], fetchedPlayerState := true
              fetchedQueue := true && true, toasts := [] }
       ∧ removeFromQueue 2 true true
          = { cmds := [.queueRemove 2], fetchedPlayerState := true
              fetchedQueue := true && true, toasts := [] }
       ∧ (handleQueueAction "play-next" "t7" "a3" true true).cmds.length = 1
       ∧ (handleQueueAction "play-next" "t7" "a3" true true).fetchedPlayerState = true
       ∧ (handleQueueAction "play-next" "t7" "a3" true true).fetchedQueue = true
       ∧ (handleQueueAction "play-next" "t7" "a3" true true).toasts
           = [⟨queueActionToastMsg "play-next", false, 2000⟩]
       ∧ queueActionToastMsg "play-next" ≠ ""
       ∧ (handleQueueAction "play-next" "t7" "a3" true false).cmds
           = (handleQueueAction "play-next" "t7" "a3" true true).cmds
       ∧ (handleQueueAction "play-next" "t7" "a3" true false).fetchedPlayerState = false
       ∧ (handleQueueAction "play-next" "t7" "a3" true false).fetchedQueue = false
       ∧ (handleQueueAction "play-next" "t7" "a3" true false).toasts
           = [⟨"Fehler: Aktion fehlgeschlagen", true, 2000⟩]) :=
  ⟨by simp, C3_amended 2 true true "play-next" "t7" "a3" (by simp)⟩

end HMC
